import Mathlib

/-!
Shallow embedding of the Vulkan bring-up sequence in `src/main.rs` of
`vulkan-works-rs`: instance creation, physical-device selection,
queue-family resolution, logical-device creation, debug callback and
teardown.  Driver handles are opaque; each driver query a function makes
is recorded in an explicit call list, and driver queries are assumed to
succeed (they are modelled as total functions), matching the `?`-free
happy path of the FFI layer.  `u32` casts (`as u32`) are modelled by
`% U32` on `Nat`.
-/

set_option autoImplicit false

/-- `const VALIDATION_LAYER: vk::ExtensionName =
    vk::ExtensionName::from_bytes(b"VK_LAYER_KHRONOS_validation")` (main.rs:27). -/
def VALIDATION_LAYER : String := "VK_LAYER_KHRONOS_validation"

/-- `vk::EXT_DEBUG_UTILS_EXTENSION.name`, the extension name pushed in
`create_instance` when validation is enabled (main.rs:186). -/
def EXT_DEBUG_UTILS_EXTENSION_NAME : String := "VK_EXT_debug_utils"

/-- `vk::QueueFlags::GRAPHICS` bit (Vulkan `VK_QUEUE_GRAPHICS_BIT = 0x1`). -/
def QueueFlags_GRAPHICS : Nat := 1

/-- One entry of `get_physical_device_queue_family_properties`: only the
`queue_flags` bitmask is consulted by the source (main.rs:149). -/
structure QueueFamilyProperties where
  queueFlags : Nat
deriving DecidableEq, Repr

/-- `p.queue_flags.contains(vk::QueueFlags::GRAPHICS)` — bitflags `contains`
is `self & other == other` (main.rs:149). -/
def hasGraphicsFlag (p : QueueFamilyProperties) : Bool :=
  p.queueFlags &&& QueueFlags_GRAPHICS == QueueFlags_GRAPHICS

/-- A physical device as observed through the instance: its driver-reported
name, its queue-family property list (in driver-reported order), and the
per-family-index surface-support answer
(`get_physical_device_surface_support_khr` against the app's one surface,
assumed to succeed). -/
structure PhysicalDevice where
  deviceName : String
  queueFamilies : List QueueFamilyProperties
  surfaceSupport : Nat → Bool

/-- Errors of the bring-up path: `SuitabilityError(&str)` (a `thiserror`
struct whose `Display` is `"Missing {0}."`, main.rs:78-80) and plain
`anyhow!("…")` string errors. -/
inductive VkError where
  | suitabilityError (what : String)
  | anyhowError (msg : String)
deriving DecidableEq, Repr

/-- `Display` of the error as printed by `{}` in the `warn!` call:
`SuitabilityError` renders through `#[error("Missing {0}.")]`, an
`anyhow!` string error renders as the string itself. -/
def VkError.display : VkError → String
  | .suitabilityError s => "Missing " ++ s ++ "."
  | .anyhowError s => s

/-- Driver queries made while examining one physical device. -/
inductive DriverCall where
  | getProperties
  | getQueueFamilyProperties
  | getSurfaceSupport (familyIndex : Nat)
deriving DecidableEq, Repr

/-- Log levels of the `log` crate, as used by the source. -/
inductive LogLevel where
  | error
  | warn
  | info
  | debug
  | trace
deriving DecidableEq, Repr

/-- Rust `Iterator::position(pred)`: index of the first element satisfying
the predicate (main.rs:148-149). -/
def position {α : Type} (p : α → Bool) : List α → Option Nat
  | [] => none
  | a :: l => if p a then some 0 else (position p l).map (· + 1)

/-- `2^32`, the modulus of the `as u32` casts. -/
def U32 : Nat := 2^32

/-- The `present` search loop of `QueueFamilyIndices::get` (main.rs:153-159):
walk indices `i, i+1, …` over the remaining `n` families, query surface
support at `index as u32` for each, stop at the first `true`, recording
every surface-support query made. -/
def presentSearch (support : Nat → Bool) : Nat → Nat → Option Nat × List DriverCall
  | _, 0 => (none, [])
  | i, Nat.succ n =>
    if support (i % U32) then
      (some (i % U32), [DriverCall.getSurfaceSupport (i % U32)])
    else
      let r := presentSearch support (i + 1) n
      (r.1, DriverCall.getSurfaceSupport (i % U32) :: r.2)

/-- `struct QueueFamilyIndices { graphics: u32, present: u32 }` (main.rs:136-139). -/
structure QueueFamilyIndices where
  graphics : Nat
  present : Nat
deriving DecidableEq, Repr

/-- `QueueFamilyIndices::get` (main.rs:142-169): fetch the queue-family
properties, take the first family whose flags contain GRAPHICS
(`position … .map(|i| i as u32)`), find the first family index with
surface support, and succeed only when both exist; otherwise fail with
`SuitabilityError("Missing required queue families")`.  The second
component lists the driver calls made. -/
def QueueFamilyIndices.get (dev : PhysicalDevice) :
    Except VkError QueueFamilyIndices × List DriverCall :=
  let fams := dev.queueFamilies
  let graphics := (position hasGraphicsFlag fams).map (fun i => i % U32)
  let pr := presentSearch dev.surfaceSupport 0 fams.length
  let calls := DriverCall.getQueueFamilyProperties :: pr.2
  match graphics, pr.1 with
  | some g, some p => (Except.ok ⟨g, p⟩, calls)
  | some _, none => (Except.error (VkError.suitabilityError "Missing required queue families"), calls)
  | none, _ => (Except.error (VkError.suitabilityError "Missing required queue families"), calls)

/-- Rust `str::contains(needle)` on character lists: some tail of the
haystack starts with the needle. -/
def containsSeq (needle : List Char) : List Char → Bool
  | [] => needle.isEmpty
  | c :: t => needle.isPrefixOf (c :: t) || containsSeq needle t

/-- The vendor filter of `check_physical_device` (main.rs:102):
`String::from_utf8_lossy(properties.device_name.as_bytes()).contains("NVIDIA")`. -/
def nameContainsNVIDIA (name : String) : Bool :=
  containsSeq "NVIDIA".toList name.toList

/-- `check_physical_device` (main.rs:96-108): query the device properties,
and if the device name contains `"NVIDIA"` run `QueueFamilyIndices::get`
(propagating its error), else fail with `anyhow!("!Nvidia")`.  The second
component lists the driver calls made. -/
def check_physical_device (dev : PhysicalDevice) :
    Except VkError Unit × List DriverCall :=
  if nameContainsNVIDIA dev.deviceName then
    let r := QueueFamilyIndices.get dev
    match r.1 with
    | Except.ok _ => (Except.ok (), DriverCall.getProperties :: r.2)
    | Except.error e => (Except.error e, DriverCall.getProperties :: r.2)
  else
    (Except.error (VkError.anyhowError "!Nvidia"), [DriverCall.getProperties])

/-- The `warn!` line emitted when a candidate is rejected (main.rs:86). -/
def skipMessage (name : String) (e : VkError) : String :=
  "Skipping physical device (`" ++ name ++ "`): " ++ e.display

/-- The `info!` line emitted when a candidate is selected (main.rs:88). -/
def selectedMessage (name : String) : String :=
  "Selected Device is `" ++ name ++ "`"

/-- `pick_physical_device` (main.rs:82-94): walk the enumerated devices in
order; on a failing `check_physical_device` log a warning and continue, on
the first success log selection and store/return that device; if the list
is exhausted fail with `anyhow!("Failed to find suitable grpahics device")`.
`Except.ok d` models `data.physical_device = d; return Ok(())`; the second
component is the log, in emission order. -/
def pick_physical_device : List PhysicalDevice →
    Except VkError PhysicalDevice × List (LogLevel × String)
  | [] => (Except.error (VkError.anyhowError "Failed to find suitable grpahics device"), [])
  | d :: rest =>
    match (check_physical_device d).1 with
    | Except.error e =>
      let r := pick_physical_device rest
      (r.1, (LogLevel.warn, skipMessage d.deviceName e) :: r.2)
    | Except.ok _ =>
      (Except.ok d, [(LogLevel.info, selectedMessage d.deviceName)])

/-- The log line `pick_physical_device` emits for a candidate: the `warn!`
skip line when the check fails, the `info!` selection line when it passes. -/
def candidateLogEntry (d : PhysicalDevice) : LogLevel × String :=
  match (check_physical_device d).1 with
  | Except.error e => (LogLevel.warn, skipMessage d.deviceName e)
  | Except.ok _ => (LogLevel.info, selectedMessage d.deviceName)

/-- One `vk::DeviceQueueCreateInfo` as built by `create_logical_device`
(main.rs:114-116): a queue-family index and the priority list (one entry
per requested queue; `1.0` is the rational `1`). -/
structure DeviceQueueCreateInfo where
  queueFamilyIndex : Nat
  queuePriorities : List ℚ
deriving DecidableEq, Repr

/-- The `vk::DeviceCreateInfo` fields the source sets (main.rs:126-129);
the feature struct is default-constructed and carries no information. -/
structure DeviceCreateInfo where
  queueCreateInfos : List DeviceQueueCreateInfo
  enabledLayerNames : List String
deriving DecidableEq, Repr

/-- `create_logical_device` (main.rs:110-133): resolve the queue families
of the picked device, build one queue-create descriptor for the graphics
family with priorities `[1.0]`, mirror the validation layer list, create
the device, and fetch `get_device_queue(indices.graphics, 0)`.  The result
carries the creation request and the `(family, slot)` pair the stored
graphics queue was retrieved from. -/
def create_logical_device (validationEnabled : Bool) (dev : PhysicalDevice) :
    Except VkError (DeviceCreateInfo × Nat × Nat) :=
  match (QueueFamilyIndices.get dev).1 with
  | Except.error e => Except.error e
  | Except.ok indices =>
    let queue_priorities : List ℚ := [1]
    let queue_info : DeviceQueueCreateInfo := ⟨indices.graphics, queue_priorities⟩
    let leayers := if validationEnabled then [VALIDATION_LAYER] else []
    Except.ok (⟨[queue_info], leayers⟩, indices.graphics, 0)

/-- Instance-level driver actions of `create_instance`, in call order. -/
inductive InstanceEvent where
  | enumerateLayerProperties
  | createInstanceCall (layers extensions : List String)
  | createMessengerCall
deriving DecidableEq, Repr

/-- What a successful `create_instance` produced: the layer and extension
sets the instance was constructed with, and whether a debug messenger was
registered on it. -/
structure InstanceResult where
  enabledLayers : List String
  enabledExtensions : List String
  messengerCreated : Bool
deriving DecidableEq, Repr

/-- `create_instance` (main.rs:172-226): collect the window-required
extensions, append the debug-utils extension when validation is enabled,
enumerate the available layer names, bail out with
`anyhow!("Validation layer requetsed but not supported.")` before any
instance is created when validation is enabled but the layer is absent,
otherwise create the instance with the resolved layer/extension sets and,
when validation is enabled, register the debug messenger.  The driver's
own `create_instance` call is assumed to succeed and is modelled by
recording the request. -/
def create_instance (validationEnabled : Bool)
    (windowExtensions availableLayers : List String) :
    Except VkError InstanceResult × List InstanceEvent :=
  let extensions :=
    if validationEnabled then windowExtensions ++ [EXT_DEBUG_UTILS_EXTENSION_NAME]
    else windowExtensions
  if validationEnabled && !(availableLayers.contains VALIDATION_LAYER) then
    (Except.error (VkError.anyhowError "Validation layer requetsed but not supported."),
     [InstanceEvent.enumerateLayerProperties])
  else
    let layers := if validationEnabled then [VALIDATION_LAYER] else []
    (Except.ok ⟨layers, extensions, validationEnabled⟩,
     [InstanceEvent.enumerateLayerProperties,
      InstanceEvent.createInstanceCall layers extensions]
       ++ (if validationEnabled then [InstanceEvent.createMessengerCall] else []))

/-- `vk::DebugUtilsMessageSeverityFlagsEXT` bit values; the source compares
them with the derived numeric order on the flag bits. -/
def SEVERITY_VERBOSE : Nat := 1
def SEVERITY_INFO : Nat := 16
def SEVERITY_WARNING : Nat := 256
def SEVERITY_ERROR : Nat := 4096

/-- `debug_callback` (main.rs:228-251): pick the log level by the severity
comparisons `severity >= ERROR / WARNING / INFO` (note the INFO branch
logs with `debug!`), format `"({:?}) {}"` with the message-type tag and
message, and return `vk::FALSE` (`0`). -/
def debug_callback (severity : Nat) (mtype message : String) :
    (LogLevel × String) × Nat :=
  let line := "(" ++ mtype ++ ") " ++ message
  let levelled : LogLevel × String :=
    if SEVERITY_ERROR ≤ severity then (LogLevel.error, line)
    else if SEVERITY_WARNING ≤ severity then (LogLevel.warn, line)
    else if SEVERITY_INFO ≤ severity then (LogLevel.debug, line)
    else (LogLevel.trace, line)
  (levelled, 0)

/-- Handles destroyed by `App::destroy`. -/
inductive VkHandle where
  | messenger
  | surface
  | device
  | inst
deriving DecidableEq, Repr, BEq

/-- `App::destroy` (main.rs:59-66): destroy the debug messenger only when
validation is enabled, then the surface, then the logical device, then the
instance; the result lists the handles in destruction order. -/
def App.destroy (validationEnabled : Bool) : List VkHandle :=
  (if validationEnabled then [VkHandle.messenger] else [])
    ++ [VkHandle.surface, VkHandle.device, VkHandle.inst]

/-- Position of the destruction of a handle in a destroy sequence. -/
def destroyIndex (h : VkHandle) (seq : List VkHandle) : Nat :=
  seq.findIdx (· == h)

/- Concrete devices used as evaluation witnesses. -/

/-- Scenario B device: the only graphics-capable family is at index 2 and
the only present-supporting family index is 0. -/
def devScenarioB : PhysicalDevice :=
  { deviceName := "NVIDIA GeForce RTX"
    queueFamilies := [⟨0⟩, ⟨4⟩, ⟨1⟩]
    surfaceSupport := fun i => i == 0 }

/-- A device with no queue families at all. -/
def devEmpty : PhysicalDevice :=
  { deviceName := "NVIDIA Empty"
    queueFamilies := []
    surfaceSupport := fun _ => false }

/-- A device whose name lacks the substring `"NVIDIA"`. -/
def devAMD : PhysicalDevice :=
  { deviceName := "AMD Radeon RX"
    queueFamilies := [⟨1⟩]
    surfaceSupport := fun _ => true }

/-! ## Helper lemmas -/

theorem position_eq_some {α : Type} {p : α → Bool} :
    ∀ {l : List α} {i : Nat}, position p l = some i →
      ∃ a, l[i]? = some a ∧ p a = true ∧
        ∀ j, j < i → ∀ b, l[j]? = some b → p b = false := by
  intro l
  induction l with
  | nil => intro i h; simp [position] at h
  | cons a t ih =>
    intro i h
    by_cases hp : p a = true
    · simp [position, hp] at h
      subst h
      exact ⟨a, by simp, hp, fun j hj => by omega⟩
    · simp [position, hp, Option.map_eq_some'] at h
      obtain ⟨i', hi', rfl⟩ := h
      obtain ⟨b, hb, hpb, hbefore⟩ := ih hi'
      refine ⟨b, by simpa using hb, hpb, ?_⟩
      intro j hj c hc
      cases j with
      | zero =>
        simp at hc
        subst hc
        simpa using hp
      | succ j' =>
        simp at hc
        exact hbefore j' (by omega) c hc


theorem position_eq_none_iff {α : Type} {p : α → Bool} :
    ∀ {l : List α}, position p l = none ↔ ∀ a ∈ l, p a = false := by
  intro l
  induction l with
  | nil => simp [position]
  | cons a t ih =>
    by_cases hp : p a = true
    · simp [position, hp]
    · have hpa : p a = false := by simpa using hp
      simp [position, hpa, Option.map_eq_none', ih]

theorem presentSearch_fst_eq_some {support : Nat → Bool} :
    ∀ (n i p : Nat), (presentSearch support i n).1 = some p →
      ∃ k, k < n ∧ p = (i + k) % U32 ∧ support ((i + k) % U32) = true ∧
        ∀ j, j < k → support ((i + j) % U32) = false := by
  intro n
  induction n with
  | zero => intro i p h; simp [presentSearch] at h
  | succ n ih =>
    intro i p h
    by_cases hs : support (i % U32) = true
    · simp only [presentSearch, hs, if_pos] at h
      refine ⟨0, by omega, ?_, ?_, by omega⟩
      · simpa using h.symm
      · simpa using hs
    · simp only [presentSearch, hs, Bool.false_eq_true, if_false] at h
      obtain ⟨k, hk, hp, hsup, hbefore⟩ := ih (i + 1) p h
      refine ⟨k + 1, by omega, ?_, ?_, ?_⟩
      · rw [hp, show i + 1 + k = i + (k + 1) by omega]
      · rw [show i + (k + 1) = i + 1 + k by omega]; exact hsup
      · intro j hj
        cases j with
        | zero => simpa using hs
        | succ j' =>
          rw [show i + (j' + 1) = i + 1 + j' by omega]
          exact hbefore j' (by omega)

theorem presentSearch_fst_eq_none_iff {support : Nat → Bool} :
    ∀ (n i : Nat), (presentSearch support i n).1 = none ↔
      ∀ j, j < n → support ((i + j) % U32) = false := by
  intro n
  induction n with
  | zero => intro i; simp [presentSearch]
  | succ n ih =>
    intro i
    by_cases hs : support (i % U32) = true
    · simp only [presentSearch, hs, if_pos]
      constructor
      · intro h; cases h
      · intro h
        have h0 := h 0 (by omega)
        rw [Nat.add_zero] at h0
        rw [hs] at h0
        cases h0
    · have hs' : support (i % U32) = false := by simpa using hs
      simp only [presentSearch, hs', Bool.false_eq_true, if_false]
      rw [ih (i + 1)]
      constructor
      · intro h j hj
        cases j with
        | zero => simpa using hs'
        | succ j' =>
          rw [show i + (j' + 1) = i + 1 + j' by omega]
          exact h j' (by omega)
      · intro h j hj
        rw [show i + 1 + j = i + (j + 1) by omega]
        exact h (j + 1) (by omega)

theorem get_fst_eq_ok {dev : PhysicalDevice} {qfi : QueueFamilyIndices}
    (h : (QueueFamilyIndices.get dev).1 = Except.ok qfi) :
    ∃ i, position hasGraphicsFlag dev.queueFamilies = some i ∧
      qfi.graphics = i % U32 ∧
      (presentSearch dev.surfaceSupport 0 dev.queueFamilies.length).1 = some qfi.present := by
  unfold QueueFamilyIndices.get at h
  cases hg : position hasGraphicsFlag dev.queueFamilies with
  | none => simp [hg] at h
  | some i =>
    cases hp : (presentSearch dev.surfaceSupport 0 dev.queueFamilies.length).1 with
    | none => simp [hg, hp] at h
    | some p =>
      simp [hg, hp] at h
      exact ⟨i, rfl, by simp [← h], by simp [← h, hp]⟩

theorem get_fst_eq_error_iff (dev : PhysicalDevice) :
    (QueueFamilyIndices.get dev).1 =
        Except.error (VkError.suitabilityError "Missing required queue families") ↔
      position hasGraphicsFlag dev.queueFamilies = none ∨
        (presentSearch dev.surfaceSupport 0 dev.queueFamilies.length).1 = none := by
  unfold QueueFamilyIndices.get
  cases hg : position hasGraphicsFlag dev.queueFamilies with
  | none => simp [hg]
  | some i =>
    cases hp : (presentSearch dev.surfaceSupport 0 dev.queueFamilies.length).1 with
    | none => simp [hg, hp]
    | some p => simp [hg, hp]

theorem pick_error_of_all_fail :
    ∀ devs : List PhysicalDevice,
      (∀ d ∈ devs, (check_physical_device d).1.isOk = false) →
      pick_physical_device devs =
        (Except.error (VkError.anyhowError "Failed to find suitable grpahics device"),
         devs.map candidateLogEntry) := by
  intro devs
  induction devs with
  | nil => intro _; rfl
  | cons d rest ih =>
    intro hall
    have hd := hall d (by simp)
    cases hc : (check_physical_device d).1 with
    | ok u => rw [hc] at hd; simp [Except.isOk, Except.toBool] at hd
    | error e =>
      have hrest := ih (fun x hx => hall x (by simp [hx]))
      simp only [pick_physical_device, hc, hrest, List.map_cons]
      simp [candidateLogEntry, hc]

/-- C3: `pick_physical_device` is first-fit and deterministic: for every
enumerated device list, it stores and returns exactly the device at the
first position whose suitability check succeeds, never a later one, even
if a later device would also pass. -/
theorem pick_physical_device_first_fit :
    ∀ (devs : List PhysicalDevice) (i : Nat) (dev : PhysicalDevice),
      devs[i]? = some dev →
      (check_physical_device dev).1.isOk = true →
      (∀ j b, j < i → devs[j]? = some b → (check_physical_device b).1.isOk = false) →
      (pick_physical_device devs).1 = Except.ok dev := by
  intro devs
  induction devs with
  | nil => intro i dev hdev; simp at hdev
  | cons d rest ih =>
    intro i dev hdev hok hfirst
    cases i with
    | zero =>
      have hd : d = dev := by simpa using hdev
      subst hd
      cases hc : (check_physical_device d).1 with
      | error e => rw [hc] at hok; simp [Except.isOk, Except.toBool] at hok
      | ok u => simp [pick_physical_device, hc]
    | succ i' =>
      have hd0 : (check_physical_device d).1.isOk = false :=
        hfirst 0 d (by omega) (by simp)
      cases hc : (check_physical_device d).1 with
      | ok u => rw [hc] at hd0; simp [Except.isOk, Except.toBool] at hd0
      | error e =>
        simp only [pick_physical_device, hc]
        exact ih i' dev (by simpa using hdev) hok
          (fun j b hj hb => hfirst (j + 1) b (by omega) (by simpa using hb))

/-! ## Claim theorems -/

/-- C1: for every physical device and surface, whenever
`QueueFamilyIndices::get` succeeds, `graphics` is the index of the first
queue family (ascending index order) whose capability flags include
graphics submission, and `present` is the index of the first queue family
reporting surface-present support for the given surface. -/
theorem queueFamily_get_first_match (dev : PhysicalDevice) (qfi : QueueFamilyIndices)
    (hlen : dev.queueFamilies.length ≤ U32)
    (h : (QueueFamilyIndices.get dev).1 = Except.ok qfi) :
    (qfi.graphics < dev.queueFamilies.length ∧
      (∃ f, dev.queueFamilies[qfi.graphics]? = some f ∧ hasGraphicsFlag f = true) ∧
      ∀ j, j < qfi.graphics → ∀ f, dev.queueFamilies[j]? = some f →
        hasGraphicsFlag f = false) ∧
    (qfi.present < dev.queueFamilies.length ∧
      dev.surfaceSupport qfi.present = true ∧
      ∀ j, j < qfi.present → dev.surfaceSupport j = false) := by
  obtain ⟨i, hpos, hgr, hps⟩ := get_fst_eq_ok h
  obtain ⟨f, hf, hpf, hbefore⟩ := position_eq_some hpos
  have hil : i < dev.queueFamilies.length := by
    rcases List.getElem?_eq_some.mp hf with ⟨hi, _⟩
    exact hi
  have hgi : qfi.graphics = i := by
    rw [hgr, Nat.mod_eq_of_lt (by omega)]
  obtain ⟨k, hk, hpk, hsup, hbeforeP⟩ := presentSearch_fst_eq_some _ 0 _ hps
  have hpk' : qfi.present = k := by
    rw [hpk, Nat.zero_add, Nat.mod_eq_of_lt (by omega)]
  refine ⟨⟨by omega, ⟨f, by rw [hgi]; exact hf, hpf⟩, ?_⟩, by omega, ?_, ?_⟩
  · intro j hj g hg
    exact hbefore j (by omega) g hg
  · rw [hpk']
    rw [Nat.zero_add, Nat.mod_eq_of_lt (by omega)] at hsup
    exact hsup
  · intro j hj
    have := hbeforeP j (by omega)
    rwa [Nat.zero_add, Nat.mod_eq_of_lt (by omega)] at this

/-- C1 witness: scenario B — the only graphics-capable family is at index 2
and the only present-supporting family is at index 0; the resolver returns
`{graphics: 2, present: 0}` and the first-match theorem applies to it. -/
theorem queueFamily_get_first_match_witness :
    (devScenarioB.queueFamilies.length ≤ U32 ∧
      (QueueFamilyIndices.get devScenarioB).1 =
        Except.ok (QueueFamilyIndices.mk 2 0)) ∧
    (((QueueFamilyIndices.mk 2 0).graphics < devScenarioB.queueFamilies.length ∧
      (∃ f, devScenarioB.queueFamilies[(QueueFamilyIndices.mk 2 0).graphics]? = some f ∧
        hasGraphicsFlag f = true) ∧
      ∀ j, j < (QueueFamilyIndices.mk 2 0).graphics →
        ∀ f, devScenarioB.queueFamilies[j]? = some f → hasGraphicsFlag f = false) ∧
    ((QueueFamilyIndices.mk 2 0).present < devScenarioB.queueFamilies.length ∧
      devScenarioB.surfaceSupport (QueueFamilyIndices.mk 2 0).present = true ∧
      ∀ j, j < (QueueFamilyIndices.mk 2 0).present →
        devScenarioB.surfaceSupport j = false)) :=
  ⟨⟨by decide, rfl⟩,
    queueFamily_get_first_match devScenarioB (QueueFamilyIndices.mk 2 0) (by decide) rfl⟩

/-- C2 counterexample: on a device with an empty queue-family list the
resolver fails, but the error payload is the capitalized
`"Missing required queue families"`, not the claim's
`"missing required queue families"`. -/
theorem queueFamily_get_error_string_counterexample :
    (QueueFamilyIndices.get devEmpty).1 =
        Except.error (VkError.suitabilityError "Missing required queue families") ∧
      "Missing required queue families" ≠ "missing required queue families" :=
  ⟨rfl, by decide⟩

/-- C2 (amended): assuming the per-family surface-support queries succeed,
`QueueFamilyIndices::get` fails with
`SuitabilityError("Missing required queue families")` — capitalized as in
the source — iff no queue family has the graphics flag or no family index
reports surface-present support; in particular it returns that error,
without panicking, on an empty family list. -/
theorem queueFamily_get_error_iff (dev : PhysicalDevice)
    (hlen : dev.queueFamilies.length ≤ U32) :
    (QueueFamilyIndices.get dev).1 =
        Except.error (VkError.suitabilityError "Missing required queue families") ↔
      (∀ f ∈ dev.queueFamilies, hasGraphicsFlag f = false) ∨
        (∀ j, j < dev.queueFamilies.length → dev.surfaceSupport j = false) := by
  rw [get_fst_eq_error_iff, position_eq_none_iff, presentSearch_fst_eq_none_iff]
  have hmod : ∀ j, j < dev.queueFamilies.length → (0 + j) % U32 = j := by
    intro j hj
    rw [Nat.zero_add, Nat.mod_eq_of_lt (by omega)]
  constructor
  · rintro (h | h)
    · exact Or.inl h
    · refine Or.inr fun j hj => ?_
      have := h j hj
      rwa [hmod j hj] at this
  · rintro (h | h)
    · exact Or.inl h
    · refine Or.inr fun j hj => ?_
      rw [hmod j hj]
      exact h j hj

/-- C2 witness: the amended iff evaluated on the device with an empty
queue-family list. -/
theorem queueFamily_get_error_iff_witness :
    devEmpty.queueFamilies.length ≤ U32 ∧
      ((QueueFamilyIndices.get devEmpty).1 =
          Except.error (VkError.suitabilityError "Missing required queue families") ↔
        (∀ f ∈ devEmpty.queueFamilies, hasGraphicsFlag f = false) ∨
          (∀ j, j < devEmpty.queueFamilies.length → devEmpty.surfaceSupport j = false)) :=
  ⟨by decide, queueFamily_get_error_iff devEmpty (by decide)⟩

/-- C3 witness: with a non-NVIDIA device first and a suitable NVIDIA device
second, `pick_physical_device` selects the second device — the first
passing candidate. -/
theorem pick_physical_device_first_fit_witness :
    ([devAMD, devScenarioB][1]? = some devScenarioB ∧
      (check_physical_device devScenarioB).1.isOk = true ∧
      ∀ j b, j < 1 → [devAMD, devScenarioB][j]? = some b →
        (check_physical_device b).1.isOk = false) ∧
    (pick_physical_device [devAMD, devScenarioB]).1 = Except.ok devScenarioB := by
  have hfirst : ∀ j b, j < 1 → [devAMD, devScenarioB][j]? = some b →
      (check_physical_device b).1.isOk = false := by
    intro j b hj hb
    have hj0 : j = 0 := by omega
    subst hj0
    have hb' : devAMD = b := by simpa using hb
    subst hb'
    rfl
  exact ⟨⟨rfl, rfl, hfirst⟩,
    pick_physical_device_first_fit [devAMD, devScenarioB] 1 devScenarioB rfl rfl hfirst⟩

/-- C4: if no enumerated device passes the suitability check — including an
empty enumeration — `pick_physical_device` fails with the
`"Failed to find suitable …"` error, and every rejected candidate is
logged at warning level with its device name and rejection reason. -/
theorem pick_physical_device_no_suitable (devs : List PhysicalDevice)
    (hall : ∀ d ∈ devs, (check_physical_device d).1.isOk = false) :
    (pick_physical_device devs).1 =
        Except.error (VkError.anyhowError "Failed to find suitable grpahics device") ∧
      (pick_physical_device devs).2 = devs.map candidateLogEntry ∧
      ∀ d ∈ devs, ∃ e, (check_physical_device d).1 = Except.error e ∧
        (LogLevel.warn, skipMessage d.deviceName e) ∈ (pick_physical_device devs).2 := by
  have hp := pick_error_of_all_fail devs hall
  refine ⟨by rw [hp], by rw [hp], ?_⟩
  intro d hd
  have hdf := hall d hd
  cases hc : (check_physical_device d).1 with
  | ok u => rw [hc] at hdf; simp [Except.isOk, Except.toBool] at hdf
  | error e =>
    refine ⟨e, rfl, ?_⟩
    rw [hp]
    have hentry : candidateLogEntry d = (LogLevel.warn, skipMessage d.deviceName e) := by
      simp [candidateLogEntry, hc]
    rw [← hentry]
    exact List.mem_map_of_mem _ hd

/-- C4 witness: a single rejected (non-NVIDIA) device — the pick fails with
the fatal error and the warning log line is emitted for the candidate. -/
theorem pick_physical_device_no_suitable_witness :
    (∀ d ∈ [devAMD], (check_physical_device d).1.isOk = false) ∧
    ((pick_physical_device [devAMD]).1 =
        Except.error (VkError.anyhowError "Failed to find suitable grpahics device") ∧
      (pick_physical_device [devAMD]).2 = [devAMD].map candidateLogEntry ∧
      ∀ d ∈ [devAMD], ∃ e, (check_physical_device d).1 = Except.error e ∧
        (LogLevel.warn, skipMessage d.deviceName e) ∈ (pick_physical_device [devAMD]).2) := by
  have hall : ∀ d ∈ [devAMD], (check_physical_device d).1.isOk = false := by
    intro d hd
    have hd' : d = devAMD := by simpa using hd
    subst hd'
    rfl
  exact ⟨hall, pick_physical_device_no_suitable [devAMD] hall⟩

/-- C5: with diagnostics enabled, `create_instance` fails with the
configuration error before any instance-creation call when the validation
layer is absent from the enumerated layer properties (the event list shows
only the layer enumeration: no instance, no messenger); when the layer is
present, the instance is created with the validation layer in its layer
set and the debug-utils extension appended to the window-required
extensions, and the messenger is then registered. -/
theorem create_instance_validation_gate (wexts avail : List String) :
    create_instance true wexts avail =
      if avail.contains VALIDATION_LAYER then
        (Except.ok
            (InstanceResult.mk [VALIDATION_LAYER]
              (wexts ++ [EXT_DEBUG_UTILS_EXTENSION_NAME]) true),
         [InstanceEvent.enumerateLayerProperties,
          InstanceEvent.createInstanceCall [VALIDATION_LAYER]
            (wexts ++ [EXT_DEBUG_UTILS_EXTENSION_NAME]),
          InstanceEvent.createMessengerCall])
      else
        (Except.error (VkError.anyhowError "Validation layer requetsed but not supported."),
         [InstanceEvent.enumerateLayerProperties]) := by
  by_cases hc : avail.contains VALIDATION_LAYER
  · simp [create_instance, hc]
  · simp [create_instance, hc]

/-- C6 counterexample: at informational severity the callback logs at the
`debug` level of the process log, not the informational level the claim
states. -/
theorem debug_callback_info_counterexample :
    debug_callback SEVERITY_INFO "GENERAL" "message" =
        ((LogLevel.debug, "(GENERAL) message"), 0) ∧
      LogLevel.debug ≠ LogLevel.info :=
  ⟨rfl, by decide⟩

/-- C6 (amended): `debug_callback` always returns the do-not-abort value
`vk::FALSE` (`0`), includes the message-type tag in the formatted output,
and maps the severity tiers error → error, warning → warn,
informational → debug (not the informational level), verbose → trace. -/
theorem debug_callback_severity_mapping (mtype message : String) :
    (∀ severity, (debug_callback severity mtype message).2 = 0) ∧
    debug_callback SEVERITY_ERROR mtype message =
        ((LogLevel.error, "(" ++ mtype ++ ") " ++ message), 0) ∧
    debug_callback SEVERITY_WARNING mtype message =
        ((LogLevel.warn, "(" ++ mtype ++ ") " ++ message), 0) ∧
    debug_callback SEVERITY_INFO mtype message =
        ((LogLevel.debug, "(" ++ mtype ++ ") " ++ message), 0) ∧
    debug_callback SEVERITY_VERBOSE mtype message =
        ((LogLevel.trace, "(" ++ mtype ++ ") " ++ message), 0) :=
  ⟨fun _ => rfl, rfl, rfl, rfl, rfl⟩

/-- C7: `App::destroy` tears down in the fixed order messenger (only when
diagnostics are enabled) → surface → device → instance; in particular the
messenger precedes the instance and the device precedes the instance. -/
theorem app_destroy_order :
    (App.destroy true =
        [VkHandle.messenger, VkHandle.surface, VkHandle.device, VkHandle.inst] ∧
      App.destroy false = [VkHandle.surface, VkHandle.device, VkHandle.inst]) ∧
    destroyIndex VkHandle.messenger (App.destroy true) <
        destroyIndex VkHandle.inst (App.destroy true) ∧
    ∀ v, destroyIndex VkHandle.device (App.destroy v) <
        destroyIndex VkHandle.inst (App.destroy v) := by
  refine ⟨⟨rfl, rfl⟩, by decide, fun v => ?_⟩
  cases v <;> decide

/-- C8 counterexample: in the destroy sequence the surface is destroyed
before the logical device, so the device is not destroyed before the
surface. -/
theorem app_destroy_surface_first_counterexample :
    destroyIndex VkHandle.surface (App.destroy true) <
        destroyIndex VkHandle.device (App.destroy true) ∧
      ¬ destroyIndex VkHandle.device (App.destroy true) <
          destroyIndex VkHandle.surface (App.destroy true) := by
  decide

/-- C8 (amended): during `App::destroy` the logical device is destroyed
after the surface and before the instance. -/
theorem app_destroy_device_after_surface :
    ∀ v, destroyIndex VkHandle.surface (App.destroy v) <
        destroyIndex VkHandle.device (App.destroy v) ∧
      destroyIndex VkHandle.device (App.destroy v) <
        destroyIndex VkHandle.inst (App.destroy v) := by
  intro v
  cases v <;> decide

/-- C9: whenever `create_logical_device` succeeds, its creation request
holds exactly one queue-creation descriptor — for the resolved graphics
family, with the single priority `1.0` — and the stored graphics queue is
retrieved from that family at slot `0`; no descriptor is built for the
present family. -/
theorem create_logical_device_single_graphics_queue (v : Bool) (dev : PhysicalDevice)
    (info : DeviceCreateInfo) (fam slot : Nat)
    (h : create_logical_device v dev = Except.ok (info, fam, slot)) :
    ∃ qfi, (QueueFamilyIndices.get dev).1 = Except.ok qfi ∧
      info.queueCreateInfos = [DeviceQueueCreateInfo.mk qfi.graphics [(1 : ℚ)]] ∧
      fam = qfi.graphics ∧ slot = 0 := by
  unfold create_logical_device at h
  cases hg : (QueueFamilyIndices.get dev).1 with
  | error e => rw [hg] at h; cases h
  | ok indices =>
    rw [hg] at h
    simp only [Except.ok.injEq, Prod.mk.injEq] at h
    obtain ⟨h1, h2, h3⟩ := h
    exact ⟨indices, rfl, by rw [← h1], h2.symm, h3.symm⟩

/-- C9 witness: on the scenario-B device (graphics family 2, present family
0, so the two differ) the device-creation request holds one descriptor for
family 2 with priorities `[1.0]` and the queue is fetched from `(2, 0)`. -/
theorem create_logical_device_single_graphics_queue_witness :
    create_logical_device true devScenarioB =
        Except.ok
          (DeviceCreateInfo.mk [DeviceQueueCreateInfo.mk 2 [(1 : ℚ)]] [VALIDATION_LAYER],
           2, 0) ∧
      ∃ qfi, (QueueFamilyIndices.get devScenarioB).1 = Except.ok qfi ∧
        (DeviceCreateInfo.mk [DeviceQueueCreateInfo.mk 2 [(1 : ℚ)]]
            [VALIDATION_LAYER]).queueCreateInfos =
          [DeviceQueueCreateInfo.mk qfi.graphics [(1 : ℚ)]] ∧
        (2 : Nat) = qfi.graphics ∧ (0 : Nat) = 0 :=
  ⟨rfl, create_logical_device_single_graphics_queue true devScenarioB
    (DeviceCreateInfo.mk [DeviceQueueCreateInfo.mk 2 [(1 : ℚ)]] [VALIDATION_LAYER])
    2 0 rfl⟩

/-- C10 (implicit): `check_physical_device` rejects any device whose
driver-reported name lacks the substring `"NVIDIA"` with the `"!Nvidia"`
error after only the properties query — no queue-family or surface-support
query is made — and on a device list with no NVIDIA-named device
`pick_physical_device` always fails. -/
theorem check_physical_device_nvidia_filter :
    (∀ dev : PhysicalDevice, nameContainsNVIDIA dev.deviceName = false →
        check_physical_device dev =
          (Except.error (VkError.anyhowError "!Nvidia"), [DriverCall.getProperties])) ∧
    ∀ devs : List PhysicalDevice,
      (∀ d ∈ devs, nameContainsNVIDIA d.deviceName = false) →
      (pick_physical_device devs).1 =
        Except.error (VkError.anyhowError "Failed to find suitable grpahics device") := by
  have hcheck : ∀ dev : PhysicalDevice, nameContainsNVIDIA dev.deviceName = false →
      check_physical_device dev =
        (Except.error (VkError.anyhowError "!Nvidia"), [DriverCall.getProperties]) := by
    intro dev hn
    simp [check_physical_device, hn]
  refine ⟨hcheck, ?_⟩
  intro devs hall
  have hfail : ∀ d ∈ devs, (check_physical_device d).1.isOk = false := by
    intro d hd
    rw [hcheck d (hall d hd)]
    rfl
  rw [pick_error_of_all_fail devs hfail]

/-- C10 witness: an AMD-named device is rejected with `"!Nvidia"` after only
the properties query, and a list holding only that device makes the pick
fail. -/
theorem check_physical_device_nvidia_filter_witness :
    (nameContainsNVIDIA devAMD.deviceName = false ∧
      check_physical_device devAMD =
        (Except.error (VkError.anyhowError "!Nvidia"), [DriverCall.getProperties])) ∧
    ((∀ d ∈ [devAMD], nameContainsNVIDIA d.deviceName = false) ∧
      (pick_physical_device [devAMD]).1 =
        Except.error (VkError.anyhowError "Failed to find suitable grpahics device")) := by
  have hn : nameContainsNVIDIA devAMD.deviceName = false := by decide
  have hall : ∀ d ∈ [devAMD], nameContainsNVIDIA d.deviceName = false := by
    intro d hd
    have hd' : d = devAMD := by simpa using hd
    subst hd'
    exact hn
  exact ⟨⟨hn, check_physical_device_nvidia_filter.1 devAMD hn⟩,
    ⟨hall, check_physical_device_nvidia_filter.2 [devAMD] hall⟩⟩
